import Mathlib

/-!
Verification development for the `news-headlines` VS Code extension
(`src/extension.ts`). The file shallowly embeds the two engine components
the specification describes — the headline fetcher (`fetchHeadlines`,
`getRssFeedUrl`, `TOPIC_MAP`) and the scroll renderer
(`startScrolling` / `stopScrolling` and the interval callback) — and
proves the spec's testable properties about them.

Strings manipulated by the scroll renderer are modelled as `List Char`
(JavaScript `substring` on character counts becomes `List.drop`/`List.take`);
the fetch pipeline keeps Lean `String`, since it only joins and compares
whole strings.
-/

namespace NewsHeadlines

/-! ## Headline fetcher (extension.ts, `fetchHeadlines`)

The network call, the XML parser and the duck-typed parsed document are
external effects; we embed them as an explicit `FetchEvent` describing every
outcome the TypeScript code distinguishes:

* `networkError`: `await fetch(url)` (or `response.text()`) throws — handled
  by the surrounding `try/catch`;
* `response status body`: the GET resolved with the given HTTP status;
  `body` is `malformed` when `parser.parse(xmlText)` throws (also routed to
  the `catch`), or `parsed doc` when it yields an object tree.

`fetchHeadlines` itself is a total Lean function: every outcome produces a
new `scrollableText` and a (possibly empty) console log — the embedding of
"this function never throws".
-/

/-- A parsed `<item>`: its `title` field is either a string or absent
(`undefined` after the XML-to-object parse). -/
structure Item where
  title : Option String
deriving DecidableEq, Repr

/-- The duck-typed shape of `jsonObj.rss.channel.item`: a single item object
or an array of item objects (`Array.isArray` distinguishes the two). -/
inductive ChannelItem where
  | one (it : Item)
  | many (its : List Item)
deriving DecidableEq, Repr

/-- The parsed document, as far as `fetchHeadlines` inspects it: either the
chain `jsonObj.rss && jsonObj.rss.channel && jsonObj.rss.channel.item` is
falsy at some link (`noItems`), or it is present (`withItems`). -/
inductive ParsedDoc where
  | noItems
  | withItems (ci : ChannelItem)
deriving DecidableEq, Repr

/-- Outcome of `parser.parse(xmlText)`: throws (`malformed`) or returns a
document. -/
inductive XmlBody where
  | malformed
  | parsed (doc : ParsedDoc)
deriving DecidableEq, Repr

/-- Everything external that can happen during one call of
`fetchHeadlines`. -/
inductive FetchEvent where
  | networkError
  | response (status : Nat) (body : XmlBody)
deriving DecidableEq, Repr

/-- `response.ok` of node-fetch: status in the 2xx range. -/
def okStatus (status : Nat) : Bool :=
  200 ≤ status && status ≤ 299

/-- `Array.isArray(item) ? item : [item]` — normalize the duck-typed shape
into a list. -/
def normalizeItems : ChannelItem → List Item
  | .one it => [it]
  | .many its => its

/-- `items.map(item => item.title).filter(title => title !== undefined)`. -/
def extractTitles (items : List Item) : List String :=
  items.filterMap Item.title

/-- Result of one `fetchHeadlines` call: the new module-level
`scrollableText` and the `console.error` entries emitted. -/
structure FetchResult where
  scrollableText : String
  log : List String
deriving DecidableEq, Repr

/-- `fetchHeadlines` (extension.ts lines 373-413): translated branch for
branch. Error paths set the sentinel `"Error fetching headlines"` and log;
a parsed document with no `channel.item`, or one whose items have no
present title, sets `"No headlines found"`; otherwise the present titles
are joined with `" — "`. -/
def fetchHeadlines (ev : FetchEvent) : FetchResult :=
  match ev with
  | .networkError =>
      { scrollableText := "Error fetching headlines"
        log := ["Failed to fetch or parse RSS feed:"] }
  | .response status body =>
      if !okStatus status then
        { scrollableText := "Error fetching headlines"
          log := ["Error fetching RSS feed:"] }
      else
        match body with
        | .malformed =>
            { scrollableText := "Error fetching headlines"
              log := ["Failed to fetch or parse RSS feed:"] }
        | .parsed .noItems =>
            { scrollableText := "No headlines found", log := [] }
        | .parsed (.withItems ci) =>
            let items := normalizeItems ci
            let titles := extractTitles items
            if 0 < titles.length then
              { scrollableText := String.intercalate " — " titles, log := [] }
            else
              { scrollableText := "No headlines found", log := [] }

/-! ## Feed-URL construction (extension.ts, `TOPIC_MAP` / `getRssFeedUrl`) -/

/-- The fixed topic table `TOPIC_MAP` (extension.ts lines 352-358), as the
lookup function a JavaScript object provides (`undefined` = `none`). -/
def TOPIC_MAP (key : String) : Option String :=
  if key = "News" then some "1001"
  else if key = "World" then some "1004"
  else if key = "Business" then some "1006"
  else if key = "Science" then some "1007"
  else if key = "Culture" then some "1008"
  else none

/-- `getRssFeedUrl` (extension.ts lines 366-371). The configuration read
`config.get('feedTopic', 'News')` is passed in as `feedTopicSetting`
(`none` when the setting is absent). `TOPIC_MAP[topicName] ||
TOPIC_MAP['News']` falls back to the `News` entry when the lookup is
`undefined`. -/
def getRssFeedUrl (feedTopicSetting : Option String) : String :=
  let topicName := feedTopicSetting.getD "News"
  let topicId := (TOPIC_MAP topicName).getD ((TOPIC_MAP "News").getD "")
  "https://feeds.npr.org/" ++ topicId ++ "/rss.xml"

/-! ## Scroll renderer (extension.ts, `startScrolling` / `stopScrolling`)

The renderer's module-level state (extension.ts lines 342-347) plus a ghost
counter `liveTimers` modelling the runtime's set of installed-and-not-yet-
cleared intervals: `setInterval` increments it, `clearInterval` decrements
it, and `scrollInterval : Bool` records whether the module-level handle
variable is defined. `statusText` is the display sink
(`statusBarItem.text`). Text is `List Char` — JavaScript indexes strings by
character position. -/
structure ScrollState where
  scrollIndex : Nat
  scrollableText : List Char
  statusText : List Char
  scrollInterval : Bool
  isCurrentlyScrolling : Bool
  liveTimers : Nat
deriving DecidableEq, Repr

/-- `const minLengthForScrolling = 40`. -/
def minLengthForScrolling : Nat := 40

/-- The padding step of the interval callback: a non-empty text shorter
than 40 characters gets `' '.repeat(40 - length)` appended; any other text
is left as is. -/
def padText (t : List Char) : List Char :=
  if 0 < t.length ∧ t.length < minLengthForScrolling then
    t ++ List.replicate (minLengthForScrolling - t.length) ' '
  else t

/-- The rotation-and-advance tail of the interval callback
(extension.ts lines 436-442), applied to the already-padded
`textToScroll`:
`start = scrollIndex % length`, emit
`substring(start) + substring(0, start)`, increment `scrollIndex`, wrap it
to 0 when it reaches the length. -/
def tickRotate (s : ScrollState) (textToScroll : List Char) : ScrollState :=
  let start := s.scrollIndex % textToScroll.length
  { s with
    statusText := textToScroll.drop start ++ textToScroll.take start
    scrollIndex :=
      if textToScroll.length ≤ s.scrollIndex + 1 then 0 else s.scrollIndex + 1 }

/-- One firing of the `setInterval` callback installed by `startScrolling`
(extension.ts lines 425-443): empty text sinks `""` and returns before any
rotation; otherwise the (possibly padded) text is rotated. -/
def tick (s : ScrollState) : ScrollState :=
  if s.scrollableText.length = 0 then
    { s with statusText := [] }
  else
    tickRotate s (padText s.scrollableText)

/-- `startScrolling` (extension.ts lines 420-446): clear the existing
interval if the handle is defined, reset `scrollIndex` to 0, install a new
interval, set the scrolling flag. -/
def startScrolling (s : ScrollState) : ScrollState :=
  let s1 :=
    if s.scrollInterval then
      { s with liveTimers := s.liveTimers - 1, scrollInterval := false }
    else s
  { s1 with
    scrollIndex := 0
    scrollInterval := true
    liveTimers := s1.liveTimers + 1
    isCurrentlyScrolling := true }

/-- `stopScrolling` (extension.ts lines 448-458): clear the interval if the
handle is defined, set the handle to `undefined`, clear the scrolling
flag. -/
def stopScrolling (s : ScrollState) : ScrollState :=
  let s1 :=
    if s.scrollInterval then
      { s with liveTimers := s.liveTimers - 1, scrollInterval := false }
    else s
  { s1 with isCurrentlyScrolling := false }

/-- The operations that touch the renderer state: the two exported calls, a
timer firing (which only happens while an interval is installed), and a
wholesale replacement of `scrollableText` (what `fetchHeadlines` does on
completion). -/
inductive Op where
  | push
  | halt
  | timer
  | setText (t : List Char)
deriving DecidableEq, Repr

/-- Apply one operation. A `timer` event fires the callback only when an
interval is installed; `setText` is the plain assignment
`scrollableText = ...`. -/
def applyOp (s : ScrollState) : Op → ScrollState
  | .push => startScrolling s
  | .halt => stopScrolling s
  | .timer => if s.scrollInterval then tick s else s
  | .setText t => { s with scrollableText := t }

/-- Run a sequence of operations from a state. -/
def run (s : ScrollState) : List Op → ScrollState
  | [] => s
  | op :: ops => run (applyOp s op) ops

/-- The module-level initial state (extension.ts lines 343-347):
`scrollIndex = 0`, `scrollableText = ""`, no interval installed, not
scrolling. -/
def initState : ScrollState :=
  { scrollIndex := 0
    scrollableText := []
    statusText := []
    scrollInterval := false
    isCurrentlyScrolling := false
    liveTimers := 0 }

/-- The circular left-rotation of `p` by `k`: `p[k:] + p[:k]`. -/
def rotAt (p : List Char) (k : Nat) : List Char :=
  p.drop k ++ p.take k

/-- The cursor invariant of the spec: `0 <= cursor < length(paddedText)`
(the lower bound is inherent in `Nat`). -/
def cursorInv (s : ScrollState) : Prop :=
  s.scrollIndex < (padText s.scrollableText).length

instance (s : ScrollState) : Decidable (cursorInv s) := by
  unfold cursorInv; infer_instance

/-- `liveTimers` agrees with the handle variable: exactly one interval is
installed when the handle is defined, none otherwise. -/
def timersConsistent (s : ScrollState) : Prop :=
  s.liveTimers = if s.scrollInterval then 1 else 0

/-- The state right after `startScrolling` runs on a fresh module state
whose `scrollableText` is `txt`. -/
def startedState (txt : List Char) : ScrollState :=
  startScrolling { initState with scrollableText := txt }

/-! ## Helper lemmas -/

theorem padText_length (t : List Char) :
    (padText t).length =
      if 0 < t.length ∧ t.length < minLengthForScrolling then minLengthForScrolling
      else t.length := by
  by_cases hc : 0 < t.length ∧ t.length < minLengthForScrolling
  · simp only [padText, if_pos hc, List.length_append, List.length_replicate]
    omega
  · simp only [padText, if_neg hc]

theorem padText_pos (t : List Char) (h : t ≠ []) : 0 < (padText t).length := by
  have hlen : 0 < t.length := List.length_pos.mpr h
  rw [padText_length]
  by_cases hc : 0 < t.length ∧ t.length < minLengthForScrolling
  · rw [if_pos hc]; exact Nat.succ_pos _
  · rwa [if_neg hc]

theorem tick_eq (s : ScrollState) (h : s.scrollableText ≠ []) :
    tick s = tickRotate s (padText s.scrollableText) := by
  unfold tick
  rw [if_neg]
  simp [List.length_eq_zero, h]

theorem tick_statusText (s : ScrollState) (h : s.scrollableText ≠ []) :
    (tick s).statusText =
      rotAt (padText s.scrollableText)
        (s.scrollIndex % (padText s.scrollableText).length) := by
  rw [tick_eq s h]; rfl

theorem tick_scrollIndexEq (s : ScrollState) (h : s.scrollableText ≠ []) :
    (tick s).scrollIndex =
      if (padText s.scrollableText).length ≤ s.scrollIndex + 1 then 0
      else s.scrollIndex + 1 := by
  rw [tick_eq s h]; rfl

theorem tick_scrollableText (s : ScrollState) :
    (tick s).scrollableText = s.scrollableText := by
  unfold tick tickRotate
  by_cases h : s.scrollableText.length = 0 <;> simp [h]

theorem tick_scrollInterval (s : ScrollState) :
    (tick s).scrollInterval = s.scrollInterval := by
  unfold tick tickRotate
  by_cases h : s.scrollableText.length = 0 <;> simp [h]

theorem tick_isCurrentlyScrolling (s : ScrollState) :
    (tick s).isCurrentlyScrolling = s.isCurrentlyScrolling := by
  unfold tick tickRotate
  by_cases h : s.scrollableText.length = 0 <;> simp [h]

theorem tick_liveTimers (s : ScrollState) :
    (tick s).liveTimers = s.liveTimers := by
  unfold tick tickRotate
  by_cases h : s.scrollableText.length = 0 <;> simp [h]

theorem startScrolling_scrollIndex (s : ScrollState) :
    (startScrolling s).scrollIndex = 0 := by
  unfold startScrolling
  by_cases h : s.scrollInterval <;> simp [h]

theorem startScrolling_scrollableText (s : ScrollState) :
    (startScrolling s).scrollableText = s.scrollableText := by
  unfold startScrolling
  by_cases h : s.scrollInterval <;> simp [h]

theorem startScrolling_scrollInterval (s : ScrollState) :
    (startScrolling s).scrollInterval = true := by
  unfold startScrolling
  by_cases h : s.scrollInterval <;> simp [h]

theorem startScrolling_isCurrentlyScrolling (s : ScrollState) :
    (startScrolling s).isCurrentlyScrolling = true := by
  unfold startScrolling
  by_cases h : s.scrollInterval <;> simp [h]

theorem stopScrolling_scrollIndex (s : ScrollState) :
    (stopScrolling s).scrollIndex = s.scrollIndex := by
  unfold stopScrolling
  by_cases h : s.scrollInterval <;> simp [h]

theorem stopScrolling_scrollableText (s : ScrollState) :
    (stopScrolling s).scrollableText = s.scrollableText := by
  unfold stopScrolling
  by_cases h : s.scrollInterval <;> simp [h]

theorem stopScrolling_scrollInterval (s : ScrollState) :
    (stopScrolling s).scrollInterval = false := by
  unfold stopScrolling
  by_cases h : s.scrollInterval <;> simp [h]

theorem stopScrolling_isCurrentlyScrolling (s : ScrollState) :
    (stopScrolling s).isCurrentlyScrolling = false := by
  unfold stopScrolling
  by_cases h : s.scrollInterval <;> simp [h]

/-- The wrap step `scrollIndex++; if (scrollIndex >= L) scrollIndex = 0`
computes `(i + 1) % L` whenever the invariant `i < L` held before. -/
theorem wrap_eq_mod (L i : Nat) (hi : i < L) :
    (if L ≤ i + 1 then 0 else i + 1) = (i + 1) % L := by
  by_cases h : L ≤ i + 1
  · have hL : i + 1 = L := by omega
    rw [if_pos h, hL, Nat.mod_self]
  · rw [if_neg h, Nat.mod_eq_of_lt (by omega)]

/-- Iterating the interval callback from a `scrollIndex = 0` state with
fixed non-empty text: the text never changes, the cursor is `k % L`, and
each tick past the first leaves the rotation by the previous cursor in the
sink. -/
theorem tick_iterate (txt : List Char) (h : txt ≠ []) (s : ScrollState)
    (hs : s.scrollableText = txt) (h0 : s.scrollIndex = 0) (k : Nat) :
    (tick^[k] s).scrollableText = txt
      ∧ (tick^[k] s).scrollIndex = k % (padText txt).length
      ∧ (0 < k → (tick^[k] s).statusText
            = rotAt (padText txt) ((k - 1) % (padText txt).length)) := by
  have hL : 0 < (padText txt).length := padText_pos txt h
  induction k with
  | zero =>
      refine ⟨hs, ?_, by omega⟩
      simp [h0]
  | succ n ih =>
      obtain ⟨htxt, hidx, _⟩ := ih
      have hne : (tick^[n] s).scrollableText ≠ [] := by rw [htxt]; exact h
      have hlt : (tick^[n] s).scrollIndex < (padText txt).length := by
        rw [hidx]; exact Nat.mod_lt _ hL
      rw [Function.iterate_succ_apply']
      refine ⟨?_, ?_, ?_⟩
      · rw [tick_scrollableText, htxt]
      · rw [tick_scrollIndexEq _ hne, htxt, hidx,
          wrap_eq_mod _ _ (hidx ▸ hlt), Nat.mod_add_mod]
      · intro _
        rw [tick_statusText _ hne, htxt, hidx,
          Nat.mod_mod_of_dvd n (dvd_refl _), Nat.add_sub_cancel]

theorem applyOp_flag_consistent (s : ScrollState) (op : Op)
    (h : s.scrollInterval = s.isCurrentlyScrolling) :
    (applyOp s op).scrollInterval = (applyOp s op).isCurrentlyScrolling := by
  cases op with
  | push =>
      show (startScrolling s).scrollInterval = (startScrolling s).isCurrentlyScrolling
      rw [startScrolling_scrollInterval, startScrolling_isCurrentlyScrolling]
  | halt =>
      show (stopScrolling s).scrollInterval = (stopScrolling s).isCurrentlyScrolling
      rw [stopScrolling_scrollInterval, stopScrolling_isCurrentlyScrolling]
  | timer =>
      show (if s.scrollInterval then tick s else s).scrollInterval
          = (if s.scrollInterval then tick s else s).isCurrentlyScrolling
      by_cases hc : s.scrollInterval
      · rw [if_pos hc, tick_scrollInterval, tick_isCurrentlyScrolling]
        exact h
      · rw [if_neg hc]
        exact h
  | setText t => exact h

theorem run_flag_consistent (ops : List Op) :
    ∀ s : ScrollState, s.scrollInterval = s.isCurrentlyScrolling →
      (run s ops).scrollInterval = (run s ops).isCurrentlyScrolling := by
  induction ops with
  | nil => intro s h; exact h
  | cons op rest ih => intro s h; exact ih _ (applyOp_flag_consistent s op h)

theorem applyOp_timersConsistent (s : ScrollState) (op : Op)
    (h : timersConsistent s) : timersConsistent (applyOp s op) := by
  cases op with
  | push =>
      show timersConsistent (startScrolling s)
      unfold timersConsistent startScrolling at *
      by_cases hc : s.scrollInterval <;> simp [hc] at h ⊢ <;> omega
  | halt =>
      show timersConsistent (stopScrolling s)
      unfold timersConsistent stopScrolling at *
      by_cases hc : s.scrollInterval <;> simp [hc] at h ⊢ <;> omega
  | timer =>
      show timersConsistent (if s.scrollInterval then tick s else s)
      by_cases hc : s.scrollInterval
      · rw [if_pos hc]
        unfold timersConsistent at *
        rw [tick_liveTimers, tick_scrollInterval]
        exact h
      · rwa [if_neg hc]
  | setText t => exact h

theorem run_timersConsistent (ops : List Op) :
    ∀ s : ScrollState, timersConsistent s → timersConsistent (run s ops) := by
  induction ops with
  | nil => intro s h; exact h
  | cons op rest ih => intro s h; exact ih _ (applyOp_timersConsistent s op h)

/-! ## Claim theorems for the scroll renderer -/

/-- Claim C2: starting from a non-empty text and a freshly started cursor,
tick number `t` (the `t+1`-st firing) emits the circular left-rotation of
the padded text at offset `t % L`, the cursor after it equals `(t+1) % L`
(advance by one, wrapping), and tick number `L` renders exactly what tick
number `0` rendered, namely the padded text itself. -/
theorem tick_rotation_cycle (txt : List Char) (h : txt ≠ []) :
    (∀ t, (tick^[t + 1] (startedState txt)).statusText
        = rotAt (padText txt) (t % (padText txt).length)) ∧
    (∀ t, (tick^[t + 1] (startedState txt)).scrollIndex
        = (t + 1) % (padText txt).length) ∧
    (tick^[(padText txt).length + 1] (startedState txt)).statusText
        = (tick^[0 + 1] (startedState txt)).statusText ∧
    (tick^[0 + 1] (startedState txt)).statusText = padText txt := by
  have hbase := tick_iterate txt h (startedState txt)
    (startScrolling_scrollableText _) (startScrolling_scrollIndex _)
  have hstat : ∀ t, (tick^[t + 1] (startedState txt)).statusText
      = rotAt (padText txt) (t % (padText txt).length) := by
    intro t
    have hk := (hbase (t + 1)).2.2 (Nat.succ_pos t)
    rwa [Nat.add_sub_cancel] at hk
  refine ⟨hstat, fun t => (hbase (t + 1)).2.1, ?_, ?_⟩
  · rw [hstat, hstat, Nat.mod_self, Nat.zero_mod]
  · rw [hstat, Nat.zero_mod]
    simp [rotAt]

theorem tick_rotation_cycle_witness :
    (tick^[0 + 1] (startedState ['H', 'E', 'L', 'L', 'O'])).statusText
      = padText ['H', 'E', 'L', 'L', 'O'] :=
  (tick_rotation_cycle ['H', 'E', 'L', 'L', 'O'] (by decide)).2.2.2

/-- Claim C3: for a non-empty stored text shorter than 40 characters the
tick rotates the right-space-padded version of length exactly 40; for a
text of 40 or more characters it rotates the text unpadded; and the stored
`scrollableText` is untouched by the tick (the padding exists only in the
rendered value). -/
theorem tick_padding (s : ScrollState) (h : s.scrollableText ≠ []) :
    (s.scrollableText.length < minLengthForScrolling →
        padText s.scrollableText
          = s.scrollableText
            ++ List.replicate (minLengthForScrolling - s.scrollableText.length) ' '
          ∧ (padText s.scrollableText).length = minLengthForScrolling) ∧
    (minLengthForScrolling ≤ s.scrollableText.length →
        padText s.scrollableText = s.scrollableText) ∧
    (tick s).statusText
      = rotAt (padText s.scrollableText)
          (s.scrollIndex % (padText s.scrollableText).length) ∧
    (tick s).scrollableText = s.scrollableText := by
  have hpos : 0 < s.scrollableText.length := List.length_pos.mpr h
  refine ⟨?_, ?_, tick_statusText s h, tick_scrollableText s⟩
  · intro hlt
    refine ⟨?_, ?_⟩
    · unfold padText
      rw [if_pos ⟨hpos, hlt⟩]
    · rw [padText_length, if_pos ⟨hpos, hlt⟩]
  · intro hge
    unfold padText
    rw [if_neg (by omega)]

theorem tick_padding_witness :
    padText ['h', 'i'] = ['h', 'i'] ++ List.replicate 38 ' ' :=
  ((tick_padding { initState with scrollableText := ['h', 'i'] }
      (by decide)).1 (by decide)).1

/-- Claim C8: when the stored text is empty the tick writes the empty
value to the sink and returns before the rotation code runs: the resulting
state differs from the input only in `statusText`, so the cursor does not
advance and no `% 0` is ever computed (the embedded `tick` is a total
function whose empty-text branch never reaches `tickRotate`). -/
theorem empty_text_tick (s : ScrollState) (h : s.scrollableText = []) :
    tick s = { s with statusText := [] } := by
  unfold tick
  simp [h]

theorem empty_text_tick_witness :
    tick initState = { initState with statusText := [] } :=
  empty_text_tick initState rfl

/-- Claim C6 (amended): the cursor invariant
`0 ≤ cursor < length(paddedText)` is established by `startScrolling` on any
non-empty text, re-established by every tick on non-empty text, and
preserved by `stopScrolling`; replacing the text and then restarting also
establishes it, and the cursor wraps to 0 exactly when the increment
reaches the padded length. (The unamended claim — that the invariant also
survives a mid-scroll replacement by a shorter text without a restart — is
refuted by `cursor_invariant_counterexample`.) -/
theorem cursor_invariant_with_restart :
    (∀ s : ScrollState, s.scrollableText ≠ [] → cursorInv (startScrolling s)) ∧
    (∀ s : ScrollState, s.scrollableText ≠ [] → cursorInv (tick s)) ∧
    (∀ s : ScrollState, cursorInv s → cursorInv (stopScrolling s)) ∧
    (∀ (s : ScrollState) (t : List Char), t ≠ [] →
        cursorInv (startScrolling (applyOp s (Op.setText t)))) ∧
    (∀ s : ScrollState, s.scrollableText ≠ [] →
        s.scrollIndex + 1 = (padText s.scrollableText).length →
        (tick s).scrollIndex = 0) := by
  refine ⟨?_, ?_, ?_, ?_, ?_⟩
  · intro s h
    unfold cursorInv
    rw [startScrolling_scrollIndex, startScrolling_scrollableText]
    exact padText_pos _ h
  · intro s h
    unfold cursorInv
    rw [tick_scrollIndexEq _ h, tick_scrollableText]
    have hL := padText_pos _ h
    by_cases hc : (padText s.scrollableText).length ≤ s.scrollIndex + 1
    · rw [if_pos hc]; exact hL
    · rw [if_neg hc]; omega
  · intro s h
    unfold cursorInv at *
    rw [stopScrolling_scrollIndex, stopScrolling_scrollableText]
    exact h
  · intro s t ht
    unfold cursorInv
    rw [startScrolling_scrollIndex, startScrolling_scrollableText]
    exact padText_pos t ht
  · intro s h hlen
    rw [tick_scrollIndexEq _ h, if_pos (by omega)]

theorem cursor_invariant_with_restart_witness :
    cursorInv (startScrolling { initState with scrollableText := ['a'] }) :=
  (cursor_invariant_with_restart).1 _ (by decide)

set_option maxRecDepth 8192 in
/-- Claim C6, as frozen, is false: starting a 45-character text, letting 41
ticks fire (cursor 41), and then replacing the text by a 2-character one
(padded length 40) mid-scroll leaves the cursor at 41 ≥ 40 between ticks —
the code only reduces the cursor modulo the length at the next tick, it
does not maintain the invariant across a shrinking replacement. -/
theorem cursor_invariant_counterexample :
    ¬ cursorInv (run initState
        (Op.setText (List.replicate 45 'a') :: Op.push ::
          (List.replicate 41 Op.timer ++ [Op.setText (List.replicate 2 'b')]))) := by
  decide

/-- Claim C7: `startScrolling` always resets the cursor to 0; along every
operation sequence from the initial state at most one interval is ever
installed (the existing one is cleared before a new one is created), and
on a timer-consistent state `startScrolling` leaves exactly one live
interval; `stopScrolling` on the never-started initial state is the
identity, and on any already-stopped state it is a no-op (and, being a
total Lean function, it cannot throw). -/
theorem start_stop_idempotent_safe :
    (∀ s : ScrollState, (startScrolling s).scrollIndex = 0) ∧
    (∀ ops : List Op, (run initState ops).liveTimers ≤ 1) ∧
    (∀ s : ScrollState, timersConsistent s → (startScrolling s).liveTimers = 1) ∧
    stopScrolling initState = initState ∧
    (∀ s : ScrollState, s.scrollInterval = false → s.isCurrentlyScrolling = false →
        stopScrolling s = s) := by
  refine ⟨startScrolling_scrollIndex, ?_, ?_, ?_, ?_⟩
  · intro ops
    have h := run_timersConsistent ops initState (by rfl)
    unfold timersConsistent at h
    by_cases hc : (run initState ops).scrollInterval <;> simp [hc] at h <;> omega
  · intro s h
    unfold timersConsistent at h
    unfold startScrolling
    by_cases hc : s.scrollInterval <;> simp [hc] at h ⊢ <;> omega
  · rfl
  · intro s h1 h2
    have hstop : stopScrolling s = { s with isCurrentlyScrolling := false } := by
      unfold stopScrolling
      simp [h1]
    rw [hstop, ← h2]

theorem start_stop_idempotent_safe_witness :
    stopScrolling { initState with scrollIndex := 7 }
      = { initState with scrollIndex := 7 } :=
  (start_stop_idempotent_safe).2.2.2.2 _ rfl rfl

/-- Claim C10: along every operation sequence from the initial state the
timer handle is defined exactly when `isCurrentlyScrolling` is true;
`startScrolling` sets both, `stopScrolling` clears both, and neither the
tick callback nor a `scrollableText` replacement touches either field. -/
theorem timer_flag_consistency :
    (∀ ops : List Op, (run initState ops).scrollInterval
        = (run initState ops).isCurrentlyScrolling) ∧
    (∀ s : ScrollState, (startScrolling s).scrollInterval = true
        ∧ (startScrolling s).isCurrentlyScrolling = true) ∧
    (∀ s : ScrollState, (stopScrolling s).scrollInterval = false
        ∧ (stopScrolling s).isCurrentlyScrolling = false) ∧
    (∀ s : ScrollState, (tick s).scrollInterval = s.scrollInterval
        ∧ (tick s).isCurrentlyScrolling = s.isCurrentlyScrolling) ∧
    (∀ (s : ScrollState) (t : List Char),
        (applyOp s (Op.setText t)).scrollInterval = s.scrollInterval
        ∧ (applyOp s (Op.setText t)).isCurrentlyScrolling
            = s.isCurrentlyScrolling) :=
  ⟨fun ops => run_flag_consistent ops initState rfl,
   fun s => ⟨startScrolling_scrollInterval s, startScrolling_isCurrentlyScrolling s⟩,
   fun s => ⟨stopScrolling_scrollInterval s, stopScrolling_isCurrentlyScrolling s⟩,
   fun s => ⟨tick_scrollInterval s, tick_isCurrentlyScrolling s⟩,
   fun _ _ => ⟨rfl, rfl⟩⟩

/-! ## Claim theorems for the headline fetcher -/

/-- Claim C1: on a 2xx response whose parsed feed carries a list of items
with at least one present title, the Display Text is exactly the present
titles joined with `" — "` in document order (absent titles are dropped by
the filter), and a single item object is processed identically to the
one-element list containing it. -/
theorem display_text_joins_present_titles (status : Nat)
    (hok : okStatus status = true) (items : List Item)
    (hnz : extractTitles items ≠ []) :
    (fetchHeadlines (FetchEvent.response status
        (XmlBody.parsed (ParsedDoc.withItems (ChannelItem.many items))))).scrollableText
      = String.intercalate " — " (extractTitles items)
    ∧ ∀ it : Item,
        fetchHeadlines (FetchEvent.response status
            (XmlBody.parsed (ParsedDoc.withItems (ChannelItem.one it))))
          = fetchHeadlines (FetchEvent.response status
              (XmlBody.parsed (ParsedDoc.withItems (ChannelItem.many [it])))) := by
  have hpos : 0 < (extractTitles items).length :=
    List.length_pos.mpr hnz
  constructor
  · simp [fetchHeadlines, hok, normalizeItems, hpos]
  · intro it
    rfl

theorem display_text_joins_present_titles_witness :
    (fetchHeadlines (FetchEvent.response 200 (XmlBody.parsed (ParsedDoc.withItems
        (ChannelItem.many [⟨some "A"⟩, ⟨none⟩, ⟨some "B"⟩]))))).scrollableText
      = String.intercalate " — " (extractTitles [⟨some "A"⟩, ⟨none⟩, ⟨some "B"⟩]) :=
  (display_text_joins_present_titles 200 (by decide)
    [⟨some "A"⟩, ⟨none⟩, ⟨some "B"⟩] (by decide)).1

/-- Claim C4: every error path of `fetchHeadlines` — non-2xx HTTP status,
network exception, or parse exception — resolves to the sentinel
`"Error fetching headlines"` together with a non-empty console log; the
embedded `fetchHeadlines` is a total function on all fetch events, which
is the meaning of "never throws to its caller". -/
theorem fetch_error_sentinel :
    (∀ (status : Nat) (body : XmlBody), okStatus status = false →
        (fetchHeadlines (FetchEvent.response status body)).scrollableText
            = "Error fetching headlines"
        ∧ (fetchHeadlines (FetchEvent.response status body)).log ≠ []) ∧
    ((fetchHeadlines FetchEvent.networkError).scrollableText
        = "Error fetching headlines"
      ∧ (fetchHeadlines FetchEvent.networkError).log ≠ []) ∧
    (∀ status : Nat,
        (fetchHeadlines (FetchEvent.response status XmlBody.malformed)).scrollableText
            = "Error fetching headlines"
        ∧ (fetchHeadlines (FetchEvent.response status XmlBody.malformed)).log ≠ []) := by
  refine ⟨?_, ⟨rfl, by simp [fetchHeadlines]⟩, ?_⟩
  · intro status body hbad
    constructor <;> simp [fetchHeadlines, hbad]
  · intro status
    by_cases hok : okStatus status
    · constructor <;> simp [fetchHeadlines, hok]
    · rw [Bool.not_eq_true] at hok
      constructor <;> simp [fetchHeadlines, hok]

theorem fetch_error_sentinel_witness :
    (fetchHeadlines (FetchEvent.response 404
        (XmlBody.parsed ParsedDoc.noItems))).scrollableText
      = "Error fetching headlines" :=
  ((fetch_error_sentinel).1 404 (XmlBody.parsed ParsedDoc.noItems) (by decide)).1

/-- Claim C5: on a 2xx response, a parsed document with no
`rss.channel.item` chain, a list of items none of which has a present
title, and a single item with an absent title all produce the sentinel
`"No headlines found"`. -/
theorem no_headlines_sentinel (status : Nat) (hok : okStatus status = true) :
    (fetchHeadlines (FetchEvent.response status
        (XmlBody.parsed ParsedDoc.noItems))).scrollableText = "No headlines found" ∧
    (∀ items : List Item, extractTitles items = [] →
        (fetchHeadlines (FetchEvent.response status
            (XmlBody.parsed (ParsedDoc.withItems
              (ChannelItem.many items))))).scrollableText = "No headlines found") ∧
    (∀ it : Item, it.title = none →
        (fetchHeadlines (FetchEvent.response status
            (XmlBody.parsed (ParsedDoc.withItems
              (ChannelItem.one it))))).scrollableText = "No headlines found") := by
  refine ⟨?_, ?_, ?_⟩
  · simp [fetchHeadlines, hok]
  · intro items hempty
    simp [fetchHeadlines, hok, normalizeItems, hempty]
  · intro it htitle
    simp [fetchHeadlines, hok, normalizeItems, extractTitles, htitle]

theorem no_headlines_sentinel_witness :
    (fetchHeadlines (FetchEvent.response 200
        (XmlBody.parsed (ParsedDoc.withItems
          (ChannelItem.many [⟨none⟩, ⟨none⟩]))))).scrollableText
      = "No headlines found" :=
  ((no_headlines_sentinel 200 (by decide)).2.1 [⟨none⟩, ⟨none⟩] (by decide))

/-- Claim C9: the feed URL maps each known topic name through the fixed
table into `https://feeds.npr.org/<topic-id>/rss.xml`, and any configured
topic name outside the table falls back to the default `News` entry
(id 1001). -/
theorem feed_url_topic_map :
    getRssFeedUrl (some "News") = "https://feeds.npr.org/1001/rss.xml" ∧
    getRssFeedUrl (some "World") = "https://feeds.npr.org/1004/rss.xml" ∧
    getRssFeedUrl (some "Business") = "https://feeds.npr.org/1006/rss.xml" ∧
    getRssFeedUrl (some "Science") = "https://feeds.npr.org/1007/rss.xml" ∧
    getRssFeedUrl (some "Culture") = "https://feeds.npr.org/1008/rss.xml" ∧
    (∀ name : String, TOPIC_MAP name = none →
        getRssFeedUrl (some name) = "https://feeds.npr.org/1001/rss.xml") := by
  refine ⟨by decide, by decide, by decide, by decide, by decide, ?_⟩
  intro name hnone
  unfold getRssFeedUrl
  show "https://feeds.npr.org/"
      ++ (TOPIC_MAP name).getD ((TOPIC_MAP "News").getD "") ++ "/rss.xml" = _
  rw [hnone]
  rfl

theorem feed_url_topic_map_witness :
    getRssFeedUrl (some "Sports") = "https://feeds.npr.org/1001/rss.xml" :=
  (feed_url_topic_map).2.2.2.2.2 "Sports" (by decide)

end NewsHeadlines
